import Mathlib

/-!
Verification of the DUNE `Power/LEDCON` and `Supervisors/Reporter` tasks.

The controller of `src/Power/LEDCON/Task.cpp` is embedded shallowly:
machine `double` timestamps and timeouts become rationals, message
handlers and poll checks become pure functions from a controller state
to a new state together with the list of outbound messages they
dispatch.  Framework primitives of the enclosing DUNE task machinery
(`isActivating`, `activate`, `activationFailed`, `deactivate`, the
`Counter` timer) are not part of the two source files; they are
modelled from the specification where noted.
-/

namespace Dune

/-- Power channel control operation codes (`PCC_OP_TURN_ON` / `PCC_OP_TURN_OFF`). -/
inductive PccOp
  | turnOn
  | turnOff
deriving DecidableEq

/-- Power operation codes (`POP_PWR_UP`, `POP_PWR_DOWN`, `POP_PWR_DOWN_IP`). -/
inductive PowerOp
  | pwrUp
  | pwrDown
  | pwrDownIp
deriving DecidableEq

/-- Entity status codes (`Status::CODE_ACTIVE` / `Status::CODE_IDLE`). -/
inductive StatusCode
  | codeActive
  | codeIdle
deriving DecidableEq

/-- Modelled from the spec: the framework-owned Activation State, one of
Idle, Activating, Active, Deactivating; the two task files read it via
`isActivating` / `isDeactivating` / `isActive`. -/
inductive ActState
  | stIdle
  | stActivating
  | stActive
  | stDeactivating
deriving DecidableEq

/-- Outbound messages and reports the LEDCON task produces. -/
inductive Event
  | powerChannelControl (name : String) (op : PccOp)
  | powerOperationOut (dest : Nat) (op : PowerOp)
  | setEntityParams (entity : String) (active : Bool)
  | entityState (code : StatusCode)
  | activationFail (reason : String)
deriving DecidableEq

/-- Static configuration: task arguments plus the timeouts supplied by the
framework (`getActivationTime` / `getDeactivationTime`) and the resolved
slave system id (`m_slave_id`, set in `onUpdateParameters`). -/
structure Config where
  pwrChn : String
  slaveId : Nat
  slaveEntity : String
  activationTime : ℚ
  deactivationTime : ℚ

/-- Mutable state of the LEDCON task: `m_slave_alive`, `m_ccu_pdown`, the
framework Activation State, and the deadline of the single `Counter`
timer `m_act_timer`.  The `Counter` is modelled from the spec as a
re-armable countdown: `setTop t` at time `now` stores the deadline
`now + t`, and `overflow` at time `t` holds when `deadline ≤ t`. -/
structure TaskState where
  slaveAlive : Bool
  ccuPdown : Bool
  actState : ActState
  deadline : ℚ
deriving DecidableEq

/-- Embeds `sendPowerChannelControl(name, value)`: a single
`PowerChannelControl` message, `TURN_ON` when `value` is true. -/
def sendPowerChannelControl (cfg : Config) (value : Bool) : Event :=
  Event.powerChannelControl cfg.pwrChn (if value then PccOp.turnOn else PccOp.turnOff)

/-- Embeds `sendPowerDown()`: a `PowerOperation` with op `POP_PWR_DOWN_IP`
addressed to the slave system. -/
def sendPowerDown (cfg : Config) : Event :=
  Event.powerOperationOut cfg.slaveId PowerOp.pwrDownIp

/-- Embeds `setActiveParameter(value)`: a `SetEntityParameters` message for
the slave entity carrying the parameter `Active = value`. -/
def setActiveParameter (cfg : Config) (value : Bool) : Event :=
  Event.setEntityParams cfg.slaveEntity value

/-- Embeds `consume(const IMC::Heartbeat*)`: when the task is not
Activating or the source is not the slave id, return unchanged; otherwise
set `m_slave_alive` when the message timestamp is within 1.0 s of the
local clock `now`.  No message is dispatched. -/
def consumeHeartbeat (cfg : Config) (now : ℚ) (src : Nat) (ts : ℚ)
    (s : TaskState) : TaskState :=
  if s.actState ≠ ActState.stActivating ∨ src ≠ cfg.slaveId then s
  else if |ts - now| ≤ 1 then { s with slaveAlive := true } else s

/-- Embeds `consume(const IMC::PowerOperation*)`: only messages whose
destination equals the slave id have any effect; `POP_PWR_UP` clears
`m_ccu_pdown` and turns the channel on, `POP_PWR_DOWN` sends the
in-place power-down, sets `m_ccu_pdown` and arms the timer with the
deactivation time.  The source checks the two opcodes in sequence. -/
def consumePowerOperation (cfg : Config) (now : ℚ) (dest : Nat) (op : PowerOp)
    (s : TaskState) : TaskState × List Event :=
  if dest = cfg.slaveId then
    let r1 : TaskState × List Event :=
      if op = PowerOp.pwrUp then
        ({ s with ccuPdown := false }, [sendPowerChannelControl cfg true])
      else (s, [])
    let r2 : TaskState × List Event :=
      if op = PowerOp.pwrDown then
        ({ r1.1 with ccuPdown := true, deadline := now + cfg.deactivationTime },
         [sendPowerDown cfg])
      else (r1.1, [])
    (r2.1, r1.2 ++ r2.2)
  else (s, [])

/-- Embeds `onRequestActivation()`: clear `m_slave_alive` and
`m_ccu_pdown`, turn the channel on, arm the timer with the activation
time. -/
def onRequestActivation (cfg : Config) (now : ℚ) (s : TaskState) :
    TaskState × List Event :=
  ({ s with slaveAlive := false, ccuPdown := false,
            deadline := now + cfg.activationTime },
   [sendPowerChannelControl cfg true])

/-- Modelled from the spec: the framework primitive that accepts an
activation request enters the Activating state and invokes the task's
`onRequestActivation` handler. -/
def requestActivation (cfg : Config) (now : ℚ) (s : TaskState) :
    TaskState × List Event :=
  onRequestActivation cfg now { s with actState := ActState.stActivating }

/-- Embeds `onActivation()` (invoked by the framework `activate()`
primitive on entering Active): report entity state ACTIVE. -/
def onActivation : List Event :=
  [Event.entityState StatusCode.codeActive]

/-- Embeds `checkActivation()`: no effect unless Activating.  On timer
overflow, report the activation failure and turn the channel off (the
framework `activationFailed` is modelled from the spec as returning the
task to Idle).  Otherwise, when the slave is alive, `activate()` (modelled
from the spec as entering Active and running `onActivation`) and set the
remote Active parameter. -/
def checkActivation (cfg : Config) (now : ℚ) (s : TaskState) :
    TaskState × List Event :=
  if s.actState ≠ ActState.stActivating then (s, [])
  else if s.deadline ≤ now then
    ({ s with actState := ActState.stIdle },
     [Event.activationFail "failed to contact device",
      sendPowerChannelControl cfg false])
  else if s.slaveAlive then
    ({ s with actState := ActState.stActive },
     onActivation ++ [setActiveParameter cfg true])
  else (s, [])

/-- Embeds `onRequestDeactivation()`: set the remote Active parameter to
false, send the in-place power-down, arm the timer with the deactivation
time. -/
def onRequestDeactivation (cfg : Config) (now : ℚ) (s : TaskState) :
    TaskState × List Event :=
  ({ s with deadline := now + cfg.deactivationTime },
   [setActiveParameter cfg false, sendPowerDown cfg])

/-- Modelled from the spec: the framework primitive that accepts a
deactivation request enters the Deactivating state and invokes the task's
`onRequestDeactivation` handler. -/
def requestDeactivation (cfg : Config) (now : ℚ) (s : TaskState) :
    TaskState × List Event :=
  onRequestDeactivation cfg now { s with actState := ActState.stDeactivating }

/-- Embeds `onDeactivation()` (invoked by the framework `deactivate()`
primitive on entering Idle): turn the channel off and report IDLE. -/
def onDeactivation (cfg : Config) : List Event :=
  [sendPowerChannelControl cfg false, Event.entityState StatusCode.codeIdle]

/-- Embeds `checkDeactivation()`: no effect unless Deactivating; on timer
overflow, `deactivate()` (modelled from the spec as entering Idle and
running `onDeactivation`). -/
def checkDeactivation (cfg : Config) (now : ℚ) (s : TaskState) :
    TaskState × List Event :=
  if s.actState ≠ ActState.stDeactivating then (s, [])
  else if s.deadline ≤ now then
    ({ s with actState := ActState.stIdle }, onDeactivation cfg)
  else (s, [])

/-- Embeds `checkPowerDown()`: no effect unless `m_ccu_pdown`; on timer
overflow, turn the channel off and report IDLE.  Note the source does not
clear `m_ccu_pdown` and does not change any field. -/
def checkPowerDown (cfg : Config) (now : ℚ) (s : TaskState) :
    TaskState × List Event :=
  if s.ccuPdown = false then (s, [])
  else if s.deadline ≤ now then
    (s, [sendPowerChannelControl cfg false, Event.entityState StatusCode.codeIdle])
  else (s, [])

/-- Embeds the status report at the top of each `onMain` iteration: ACTIVE
when the framework `isActive()` holds (modelled from the spec as the
Activation State being Active), else IDLE. -/
def statusReport (s : TaskState) : Event :=
  Event.entityState
    (if s.actState = ActState.stActive then StatusCode.codeActive else StatusCode.codeIdle)

/-- Embeds one wake of the `onMain` loop body: the status report, then
`checkActivation`, `checkDeactivation`, `checkPowerDown`, in the source's
order, threading the state and concatenating dispatched messages. -/
def pollStep (cfg : Config) (now : ℚ) (s : TaskState) : TaskState × List Event :=
  let r1 := checkActivation cfg now s
  let r2 := checkDeactivation cfg now r1.1
  let r3 := checkPowerDown cfg now r2.1
  (r3.1, statusReport s :: (r1.2 ++ r2.2 ++ r3.2))

/-- Runs `pollStep` at each of a list of wake times, concatenating the
dispatched messages. -/
def pollTrace (cfg : Config) : List ℚ → TaskState → TaskState × List Event
  | [], s => (s, [])
  | t :: ts, s =>
    let r1 := pollStep cfg t s
    let r2 := pollTrace cfg ts r1.1
    (r2.1, r1.2 ++ r2.2)

/-- Counts the events satisfying `p`. -/
def countEvents (p : Event → Bool) (es : List Event) : Nat :=
  (es.filter p).length

/-- Recognizes an activation-failure report. -/
def isFailEvent : Event → Bool
  | Event.activationFail _ => true
  | _ => false

/-- Recognizes a channel TURN_OFF command. -/
def isOffEvent : Event → Bool
  | Event.powerChannelControl _ PccOp.turnOff => true
  | _ => false

/-- Alternative poll ordering following the words of the specification
sentence under scrutiny: the three condition checks first, then one
status report computed from the resulting state.  Compared against
`pollStep`, which embeds the source's `onMain`. -/
def pollStepSpecOrder (cfg : Config) (now : ℚ) (s : TaskState) :
    TaskState × List Event :=
  let r1 := checkActivation cfg now s
  let r2 := checkDeactivation cfg now r1.1
  let r3 := checkPowerDown cfg now r2.1
  (r3.1, r1.2 ++ r2.2 ++ r3.2 ++ [statusReport r3.1])

/-- ReportControl operation codes of the Reporter task
(`OP_REQUEST_START`, `OP_REQUEST_STOP`, `OP_STARTED`, `OP_STOPPED`,
`OP_REQUEST_REPORT`, `OP_REPORT_SENT`). -/
inductive RcOp
  | requestStart
  | requestStop
  | started
  | stopped
  | requestReport
  | reportSent
deriving DecidableEq

/-- Embeds `Supervisors::Reporter::Task::consume(const IMC::ReportControl*)`.
The ticket dispatcher (modelled from the spec: a black box with add,
remove and query operations, its implementation not part of this core)
is abstracted as a value of type `D` with operations `add`, `remove` and
emptiness test `isEmpty`.  A request-start adds a ticket and replies
STARTED; a request-stop removes it and replies STOPPED; every other
opcode is ignored.  The handler ends by setting the entity state to IDLE
when the dispatcher is empty and ACTIVE otherwise. -/
def reporterConsume {D : Type} (add remove : D → D) (isEmpty : D → Bool)
    (d : D) (op : RcOp) : D × List RcOp × StatusCode :=
  let r : D × List RcOp :=
    match op with
    | RcOp.requestStart => (add d, [RcOp.started])
    | RcOp.requestStop => (remove d, [RcOp.stopped])
    | _ => (d, [])
  (r.1, r.2,
   if isEmpty r.1 then StatusCode.codeIdle else StatusCode.codeActive)

/-- Embeds `Supervisors::Reporter::Task::onUpdateParameters`.  When a
relevant parameter changed: with acoustic reports enabled, a loop-back
REQUEST_START is dispatched (the dispatcher itself is updated only when
that message is later consumed); with them disabled, acoustic tickets are
cleared via the dispatcher's `clearAcoustic`.  The handler ends by
setting the entity state to IDLE when the dispatcher is empty and ACTIVE
otherwise. -/
def reporterUpdateParams {D : Type} (clearAcoustic : D → D)
    (isEmpty : D → Bool) (changed acoustic : Bool) (d : D) :
    D × List RcOp × StatusCode :=
  let r : D × List RcOp :=
    if changed then
      if acoustic then (d, [RcOp.requestStart]) else (clearAcoustic d, [])
    else (d, [])
  (r.1, r.2,
   if isEmpty r.1 then StatusCode.codeIdle else StatusCode.codeActive)

/-- Disjunction of the two outbound-message shapes tracked by the
activation-timeout property: activation-failure reports and channel
TURN_OFF commands. -/
def failOrOff (e : Event) : Bool :=
  isFailEvent e || isOffEvent e

/-- C1: a received Heartbeat sets `slaveAlive` to true iff the controller
is Activating, the source is the resolved remote id, and the timestamp is
within 1.0 s of the local clock; in every other case it has no effect. -/
theorem heartbeat_alive_iff (cfg : Config) (now : ℚ) (src : Nat) (ts : ℚ)
    (s : TaskState) :
    consumeHeartbeat cfg now src ts s =
      if s.actState = ActState.stActivating ∧ src = cfg.slaveId ∧ |ts - now| ≤ 1
      then { s with slaveAlive := true } else s := by
  unfold consumeHeartbeat
  by_cases h1 : s.actState = ActState.stActivating
  · by_cases h2 : src = cfg.slaveId
    · by_cases h3 : |ts - now| ≤ 1 <;> simp [h1, h2, h3]
    · simp [h1, h2]
  · simp [h1]

/-- C3: whenever the controller is Deactivating and the deadline timer has
elapsed, the deactivation check confirms deactivation — entering Idle,
commanding the channel OFF and reporting IDLE — for every state,
regardless of `slaveAlive` or any other liveness evidence. -/
theorem deactivation_always_completes (cfg : Config) (now : ℚ) (s : TaskState)
    (h1 : s.actState = ActState.stDeactivating) (h2 : s.deadline ≤ now) :
    checkDeactivation cfg now s =
      ({ s with actState := ActState.stIdle },
       [sendPowerChannelControl cfg false, Event.entityState StatusCode.codeIdle]) := by
  simp [checkDeactivation, onDeactivation, h1, h2]

/-- Witness for C3 at a concrete deactivating state with `slaveAlive`
still true, exhibiting independence from liveness. -/
theorem deactivation_always_completes_witness :
    (⟨true, false, ActState.stDeactivating, 0⟩ : TaskState).actState
        = ActState.stDeactivating ∧
    (⟨true, false, ActState.stDeactivating, 0⟩ : TaskState).deadline ≤ (1 : ℚ) ∧
    checkDeactivation ⟨"C1", 42, "E", 30, 10⟩ 1 ⟨true, false, ActState.stDeactivating, 0⟩ =
      (⟨true, false, ActState.stIdle, 0⟩,
       [sendPowerChannelControl ⟨"C1", 42, "E", 30, 10⟩ false,
        Event.entityState StatusCode.codeIdle]) :=
  ⟨rfl, by decide,
   deactivation_always_completes ⟨"C1", 42, "E", 30, 10⟩ 1
     ⟨true, false, ActState.stDeactivating, 0⟩ rfl (by decide)⟩

/-- C4: every activation request clears `slaveAlive` and `ccuPdown`,
commands the channel ON, and arms the deadline timer with the activation
timeout. -/
theorem activation_request_effects (cfg : Config) (now : ℚ) (s : TaskState) :
    requestActivation cfg now s =
      ({ slaveAlive := false, ccuPdown := false, actState := ActState.stActivating,
         deadline := now + cfg.activationTime },
       [Event.powerChannelControl cfg.pwrChn PccOp.turnOn]) :=
  rfl

/-- Counterexample for C6: after the cutoff poll fires, a subsequent poll
with the flag still set and the timer still overflowed issues the OFF
command and the IDLE report again — the cutoff is not a one-shot. -/
theorem powerdown_cutoff_cex :
    (checkPowerDown ⟨"C1", 42, "E", 30, 10⟩ 2
        (checkPowerDown ⟨"C1", 42, "E", 30, 10⟩ 1
          ⟨false, true, ActState.stIdle, 0⟩).1).2 =
      [Event.powerChannelControl "C1" PccOp.turnOff,
       Event.entityState StatusCode.codeIdle] ∧
    (checkPowerDown ⟨"C1", 42, "E", 30, 10⟩ 2
        (checkPowerDown ⟨"C1", 42, "E", 30, 10⟩ 1
          ⟨false, true, ActState.stIdle, 0⟩).1).2 ≠ [] := by
  constructor <;> decide

/-- C6 amended: on a poll where `ccuPdown` holds and the deadline timer
has elapsed, the controller issues the channel OFF command and reports
IDLE, leaving the whole state — the flag included — unchanged; hence the
cutoff repeats on every later poll until the flag is cleared by a
POWER_UP or an activation request. -/
theorem powerdown_cutoff_repeats (cfg : Config) (now : ℚ) (s : TaskState)
    (h1 : s.ccuPdown = true) (h2 : s.deadline ≤ now) :
    checkPowerDown cfg now s =
      (s, [sendPowerChannelControl cfg false, Event.entityState StatusCode.codeIdle]) := by
  simp [checkPowerDown, h1, h2]

/-- Witness for the amended C6 at a concrete overflowed power-down
state. -/
theorem powerdown_cutoff_repeats_witness :
    (⟨false, true, ActState.stIdle, 0⟩ : TaskState).ccuPdown = true ∧
    (⟨false, true, ActState.stIdle, 0⟩ : TaskState).deadline ≤ (1 : ℚ) ∧
    checkPowerDown ⟨"C1", 42, "E", 30, 10⟩ 1 ⟨false, true, ActState.stIdle, 0⟩ =
      (⟨false, true, ActState.stIdle, 0⟩,
       [sendPowerChannelControl ⟨"C1", 42, "E", 30, 10⟩ false,
        Event.entityState StatusCode.codeIdle]) :=
  ⟨rfl, by decide,
   powerdown_cutoff_repeats ⟨"C1", 42, "E", 30, 10⟩ 1
     ⟨false, true, ActState.stIdle, 0⟩ rfl (by decide)⟩

/-- C7: a POWER_DOWN addressed to the slave id received while Idle sends
the in-place power-down, sets `ccuPdown`, arms the timer with the
deactivation timeout, leaves the Activation State unchanged at Idle, and
at any poll past the armed deadline the power-down check commands the
channel OFF. -/
theorem powerdown_while_idle (cfg : Config) (now t : ℚ) (s : TaskState)
    (h1 : s.actState = ActState.stIdle)
    (h2 : now + cfg.deactivationTime ≤ t) :
    consumePowerOperation cfg now cfg.slaveId PowerOp.pwrDown s =
      ({ s with ccuPdown := true, deadline := now + cfg.deactivationTime },
       [sendPowerDown cfg]) ∧
    (consumePowerOperation cfg now cfg.slaveId PowerOp.pwrDown s).1.actState
        = ActState.stIdle ∧
    (checkPowerDown cfg t
        (consumePowerOperation cfg now cfg.slaveId PowerOp.pwrDown s).1).2 =
      [sendPowerChannelControl cfg false, Event.entityState StatusCode.codeIdle] := by
  refine ⟨by simp [consumePowerOperation], by simp [consumePowerOperation, h1], ?_⟩
  simp [consumePowerOperation, checkPowerDown, h2]

/-- C8: a POWER_UP addressed to the slave id clears `ccuPdown` and
commands the channel ON, and consuming it again (at any later time) from
the resulting state produces the same state and the same single ON
command. -/
theorem power_up_idempotent (cfg : Config) (now now2 : ℚ) (s : TaskState) :
    consumePowerOperation cfg now cfg.slaveId PowerOp.pwrUp s =
      ({ s with ccuPdown := false }, [sendPowerChannelControl cfg true]) ∧
    consumePowerOperation cfg now2 cfg.slaveId PowerOp.pwrUp
        (consumePowerOperation cfg now cfg.slaveId PowerOp.pwrUp s).1 =
      ((consumePowerOperation cfg now cfg.slaveId PowerOp.pwrUp s).1,
       [sendPowerChannelControl cfg true]) := by
  constructor <;> simp [consumePowerOperation]

/-- C9: a PowerOperation whose destination is not the slave id leaves the
state unchanged and dispatches nothing, for every opcode. -/
theorem power_op_other_dest (cfg : Config) (now : ℚ) (dest : Nat)
    (op : PowerOp) (s : TaskState) (h : dest ≠ cfg.slaveId) :
    consumePowerOperation cfg now dest op s = (s, []) := by
  simp [consumePowerOperation, h]

/-- Witness for C9 at a concrete mismatched destination. -/
theorem power_op_other_dest_witness :
    (7 : Nat) ≠ (⟨"C1", 42, "E", 30, 10⟩ : Config).slaveId ∧
    consumePowerOperation ⟨"C1", 42, "E", 30, 10⟩ 0 7 PowerOp.pwrDown
        ⟨false, false, ActState.stIdle, 0⟩ =
      (⟨false, false, ActState.stIdle, 0⟩, []) :=
  ⟨by decide,
   power_op_other_dest ⟨"C1", 42, "E", 30, 10⟩ 0 7 PowerOp.pwrDown
     ⟨false, false, ActState.stIdle, 0⟩ (by decide)⟩

/-- Arithmetic fact used to instantiate the armed power-down deadline at
a concrete input. -/
theorem zero_add_ten_le_twenty :
    ((0 : ℚ) + (⟨"C1", 42, "E", 30, 10⟩ : Config).deactivationTime ≤ 20) := by
  show (0 : ℚ) + 10 ≤ 20
  norm_num

/-- Witness for C7 at a concrete idle state: the POWER_DOWN at time 0
arms the 10 s grace period and the poll at time 20 commands OFF. -/
theorem powerdown_while_idle_witness :
    (⟨false, false, ActState.stIdle, 0⟩ : TaskState).actState = ActState.stIdle ∧
    ((0 : ℚ) + (⟨"C1", 42, "E", 30, 10⟩ : Config).deactivationTime ≤ 20) ∧
    (consumePowerOperation ⟨"C1", 42, "E", 30, 10⟩ 0
        (⟨"C1", 42, "E", 30, 10⟩ : Config).slaveId PowerOp.pwrDown
        ⟨false, false, ActState.stIdle, 0⟩).1.actState = ActState.stIdle ∧
    (checkPowerDown ⟨"C1", 42, "E", 30, 10⟩ 20
        (consumePowerOperation ⟨"C1", 42, "E", 30, 10⟩ 0
          (⟨"C1", 42, "E", 30, 10⟩ : Config).slaveId PowerOp.pwrDown
          ⟨false, false, ActState.stIdle, 0⟩).1).2 =
      [sendPowerChannelControl ⟨"C1", 42, "E", 30, 10⟩ false,
       Event.entityState StatusCode.codeIdle] :=
  ⟨rfl, zero_add_ten_le_twenty,
   (powerdown_while_idle ⟨"C1", 42, "E", 30, 10⟩ 0 20
     ⟨false, false, ActState.stIdle, 0⟩ rfl zero_add_ten_le_twenty).2.1,
   (powerdown_while_idle ⟨"C1", 42, "E", 30, 10⟩ 0 20
     ⟨false, false, ActState.stIdle, 0⟩ rfl zero_add_ten_le_twenty).2.2⟩

/-- Counterexample for C5: at a concrete activating state with an
overflowed timer, the poll of the source differs from the order the
claim states (checks first, report last); the first event the source
emits is the status report. -/
theorem poll_order_cex :
    pollStep ⟨"C1", 42, "E", 30, 10⟩ 1 ⟨false, false, ActState.stActivating, 0⟩ ≠
      pollStepSpecOrder ⟨"C1", 42, "E", 30, 10⟩ 1
        ⟨false, false, ActState.stActivating, 0⟩ ∧
    (pollStep ⟨"C1", 42, "E", 30, 10⟩ 1
        ⟨false, false, ActState.stActivating, 0⟩).2.head? =
      some (Event.entityState StatusCode.codeIdle) := by
  constructor <;> decide

/-- C5 amended: on every wake the controller first issues one status
report — ACTIVE if the task is operationally active, IDLE otherwise —
and then performs the three ordered condition checks: activation, then
deactivation, then power-down cascade, threading the state in that
order. -/
theorem poll_report_then_checks (cfg : Config) (now : ℚ) (s : TaskState) :
    (pollStep cfg now s).2 =
      statusReport s ::
        ((checkActivation cfg now s).2 ++
         (checkDeactivation cfg now (checkActivation cfg now s).1).2 ++
         (checkPowerDown cfg now
           (checkDeactivation cfg now (checkActivation cfg now s).1).1).2) ∧
    (pollStep cfg now s).1 =
      (checkPowerDown cfg now
        (checkDeactivation cfg now (checkActivation cfg now s).1).1).1 ∧
    statusReport s =
      Event.entityState
        (if s.actState = ActState.stActive then StatusCode.codeActive
         else StatusCode.codeIdle) :=
  ⟨rfl, rfl, rfl⟩

/-- Entity-state assignment from an emptiness test: the assigned code is
IDLE exactly when the test holds. -/
theorem status_of_isEmpty {D : Type} (isEmpty : D → Bool) (x : D) :
    ((if isEmpty x then StatusCode.codeIdle else StatusCode.codeActive) =
        StatusCode.codeIdle ↔ isEmpty x = true) := by
  cases h : isEmpty x <;> simp [h]

/-- C10: at the end of both Reporter handlers — the ReportControl
consumer and the parameter-update hook — the entity state is IDLE iff
the ticket dispatcher is empty, for every dispatcher implementation. -/
theorem reporter_state_iff_empty {D : Type} (add remove clearAcoustic : D → D)
    (isEmpty : D → Bool) (d : D) (op : RcOp) (changed acoustic : Bool) :
    ((reporterConsume add remove isEmpty d op).2.2 = StatusCode.codeIdle ↔
      isEmpty (reporterConsume add remove isEmpty d op).1 = true) ∧
    ((reporterUpdateParams clearAcoustic isEmpty changed acoustic d).2.2 =
        StatusCode.codeIdle ↔
      isEmpty (reporterUpdateParams clearAcoustic isEmpty changed acoustic d).1 = true) := by
  constructor
  · cases op <;> exact status_of_isEmpty isEmpty _
  · cases changed <;> cases acoustic <;> exact status_of_isEmpty isEmpty _

/-- Poll of a pending activation attempt (Activating, slave not alive,
no power-down cascade) before the deadline: only the status report is
emitted and the state is unchanged. -/
theorem pollStep_waiting (cfg : Config) (t : ℚ) (s : TaskState)
    (h1 : s.actState = ActState.stActivating) (h2 : s.slaveAlive = false)
    (h3 : s.ccuPdown = false) (h4 : ¬ s.deadline ≤ t) :
    pollStep cfg t s = (s, [Event.entityState StatusCode.codeIdle]) := by
  simp [pollStep, checkActivation, checkDeactivation, checkPowerDown,
        statusReport, h1, h2, h3, h4]

/-- Poll of a pending activation attempt at or past the deadline: the
failure is reported, the channel is commanded OFF, and the task returns
to Idle. -/
theorem pollStep_timeout (cfg : Config) (t : ℚ) (s : TaskState)
    (h1 : s.actState = ActState.stActivating) (h3 : s.ccuPdown = false)
    (h4 : s.deadline ≤ t) :
    pollStep cfg t s =
      ({ s with actState := ActState.stIdle },
       [Event.entityState StatusCode.codeIdle,
        Event.activationFail "failed to contact device",
        sendPowerChannelControl cfg false]) := by
  simp [pollStep, checkActivation, checkDeactivation, checkPowerDown,
        statusReport, h1, h3, h4]

/-- Poll of an idle task with no power-down cascade pending: only the
status report is emitted and the state is unchanged. -/
theorem pollStep_idle (cfg : Config) (t : ℚ) (s : TaskState)
    (h1 : s.actState = ActState.stIdle) (h3 : s.ccuPdown = false) :
    pollStep cfg t s = (s, [Event.entityState StatusCode.codeIdle]) := by
  simp [pollStep, checkActivation, checkDeactivation, checkPowerDown,
        statusReport, h1, h3]

/-- Polls of an idle task with no cascade pending emit no failure report
and no OFF command, however many wakes occur. -/
theorem pollTrace_idle_filter (cfg : Config) (times : List ℚ) (s : TaskState)
    (h1 : s.actState = ActState.stIdle) (h3 : s.ccuPdown = false) :
    ((pollTrace cfg times s).2.filter failOrOff) = [] := by
  induction times with
  | nil => simp [pollTrace]
  | cons t ts ih =>
    simp [pollTrace, pollStep_idle cfg t s h1 h3, failOrOff,
          isFailEvent, isOffEvent, ih]

/-- Trace of an activation attempt with no qualifying heartbeat: among
the failure reports and OFF commands, the polls emit exactly one failure
(with the reason of the source) followed by one OFF command when some
wake is at or past the deadline, and nothing otherwise. -/
theorem pollTrace_activating_filter (cfg : Config) (times : List ℚ)
    (s : TaskState)
    (h1 : s.actState = ActState.stActivating) (h2 : s.slaveAlive = false)
    (h3 : s.ccuPdown = false) :
    ((pollTrace cfg times s).2.filter failOrOff) =
      (if times.any (fun t => decide (s.deadline ≤ t)) then
        [Event.activationFail "failed to contact device",
         sendPowerChannelControl cfg false]
       else []) := by
  induction times with
  | nil => simp [pollTrace]
  | cons t ts ih =>
    by_cases h4 : s.deadline ≤ t
    · have hrest := pollTrace_idle_filter cfg ts
        { s with actState := ActState.stIdle } rfl h3
      simp [pollTrace, pollStep_timeout cfg t s h1 h3 h4, hrest, failOrOff,
            isFailEvent, isOffEvent, sendPowerChannelControl, h4]
    · simp [pollTrace, pollStep_waiting cfg t s h1 h2 h3 h4, failOrOff,
            isFailEvent, isOffEvent, h4, ih]

/-- C2: for every activation attempt during which no heartbeat is
consumed, the subsequent polls emit exactly one activation-failure
report — with reason "failed to contact device" — immediately followed
by one channel OFF command when some wake occurs at or past the armed
deadline, and no failure report and no OFF command at all otherwise. -/
theorem activation_timeout_once (cfg : Config) (now : ℚ) (s : TaskState)
    (times : List ℚ) :
    ((pollTrace cfg times (requestActivation cfg now s).1).2.filter failOrOff) =
      (if times.any (fun t => decide (now + cfg.activationTime ≤ t)) then
        [Event.activationFail "failed to contact device",
         sendPowerChannelControl cfg false]
       else []) :=
  pollTrace_activating_filter cfg times (requestActivation cfg now s).1 rfl rfl rfl

end Dune
